import Mathlib

/-!
# go-sentinel: the per-master control loop (`master.go`)

A shallow embedding of the functions of `master.go` and the properties of
their contracts.

Conventions of the embedding.

* A Go `map[string]V` is a list of key/value pairs (`GoMap V`). A `range` loop
  whose outcome does not depend on the visiting order walks the list; the one
  loop whose outcome does depend on it (the maximum search of
  `checkWhoIsLeader`) takes the visiting order as an explicit argument.
* Go `int`, `time.Time` and `time.Duration` values are integers (`Int`); a time
  is the number of clock ticks since a fixed origin and `time.Since t` at clock
  reading `now` is `now - t`. The clock readings of one pass of a loop are one
  instant `now`.
* `checkIfShouldFailover`, whose contract orders epochs, is computed in 64-bit
  arithmetic: `+`, `-` and `*` on `int` and `time.Duration` wrap around
  (`wrapInt64`) and `time.Since` saturates (`timeSince`).
* Mutexes, channels, loggers and network clients carry no data the properties
  speak about and are left out of the records; what a client call answers is an
  argument of the function that makes the call.
* A `panic` is the `Except.error` component of the result, next to the record
  as it stands when the panic is raised.
-/

namespace GoSentinel

/-! ## Go maps -/

/-- A Go `map[string]V`: key/value pairs, one pair per key. -/
abbrev GoMap (V : Type) := List (String × V)

namespace GoMap

/-- The keys of the map. -/
def keys {V : Type} (m : GoMap V) : List String := m.map Prod.fst

/-- The lookup `v, ok := m[k]`. -/
def get? {V : Type} (m : GoMap V) (k : String) : Option V := List.lookup k m

/-- The assignment `m[k] = v`: overwrites the entry of `k`, or adds one. -/
def set {V : Type} : GoMap V → String → V → GoMap V
  | [], k, v => [(k, v)]
  | (k', v') :: rest, k, v =>
      if k' = k then (k, v) :: rest else (k', v') :: set rest k v

/-- The statement `delete(m, k)`. -/
def delete {V : Type} (m : GoMap V) (k : String) : GoMap V :=
  m.filter (fun kv => decide (kv.1 ≠ k))

end GoMap

/-! ## Data model -/

/-- Modelled from the spec: the type `masterInstanceState` is declared outside
`master.go`; its three values are the ones `master.go` names. -/
inductive MasterInstanceState where
  | masterStateUp
  | masterStateSubjDown
  | masterStateObjDown
  deriving DecidableEq, Repr

/-- The type `failOverState` with its five values (`master.go`, lines 735-742). -/
inductive FailOverState where
  | failOverNone
  | failOverWaitLeaderElection
  | failOverSelectSlave
  | failOverPromoteSlave
  | failOverReconfSlave
  deriving DecidableEq, Repr

/-- Modelled from the spec: the per-master configuration `MasterMonitor` is
declared outside `master.go`; these are the fields `master.go` reads. -/
structure MasterMonitor where
  DownAfter : Int
  Quorum : Int
  FailoverTimeout : Int
  ReconfigSlaveTimeout : Int
  ParallelSync : Int
  deriving DecidableEq, Repr

/-- Modelled from the spec: the Peer Record `sentinelInstance` is declared
outside `master.go`; these are the fields `master.go` reads and writes. The
field `client` holds the address the RPC client was created for. -/
structure SentinelInstance where
  runID : String
  sdown : Bool
  leaderID : String
  leaderEpoch : Int
  lastMasterDownReply : Int
  client : String × String
  deriving DecidableEq, Repr

/-- Modelled from the spec: the Slave Record `slaveInstance` is declared
outside `master.go`; these are the fields `master.go` reads and writes. The
pointer `reportedMaster` is kept as the address of the record pointed to. -/
structure SlaveInstance where
  runID : String
  host : String
  port : String
  addr : String
  masterHost : String
  masterPort : String
  replOffset : Int
  reconfigFlag : Nat
  killed : Bool
  reportedMaster : String
  deriving DecidableEq, Repr

/-- The Master Record `masterInstance` (`master.go`, lines 702-733), without
its mutex, channels and client. -/
structure MasterInstance where
  sentinelConf : MasterMonitor
  isKilled : Bool
  name : String
  runID : String
  slaves : GoMap SlaveInstance
  promotedSlave : Option SlaveInstance
  sentinels : GoMap SentinelInstance
  host : String
  port : String
  state : MasterInstanceState
  downSince : Int
  lastSuccessfulPing : Int
  failOverState : FailOverState
  failOverEpoch : Int
  failOverStartTime : Int
  failOverStateChangeTime : Int
  leaderEpoch : Int
  leaderID : String
  configEpoch : Int
  deriving DecidableEq, Repr

/-- Modelled from the spec: the monitor `Sentinel` is declared outside
`master.go`; these are the fields `master.go` reads and writes. -/
structure Sentinel where
  runID : String
  currentEpoch : Int
  masterInstances : GoMap MasterInstance
  deriving DecidableEq, Repr

/-- The method `selfID` of the monitor. -/
def Sentinel.selfID (s : Sentinel) : String := s.runID

/-- The method `getAddr`: `fmt.Sprintf("%s:%s", m.host, m.port)`. -/
def MasterInstance.getAddr (m : MasterInstance) : String := m.host ++ ":" ++ m.port

/-! ## Objective-down agreement -/

/-- The counting loop of `checkObjDown`: starting from `down`, one more for
every Peer Record with `sdown` set. -/
def countDown (sentinels : GoMap SentinelInstance) (down : Int) : Int :=
  sentinels.foldl (fun d kv => if kv.2.sdown then d + 1 else d) down

/-- The function `checkObjDown` (`master.go`, lines 576-596). -/
def checkObjDown (m : MasterInstance) : Except String Unit × MasterInstance :=
  let quorum := m.sentinelConf.Quorum
  if (m.sentinels.length : Int) + 1 < quorum then
    (Except.error "quorum too large or too few sentinel instances", m)
  else
    let down := countDown m.sentinels 1
    if down ≥ quorum then
      (Except.ok (), { m with state := MasterInstanceState.masterStateObjDown })
    else
      (Except.ok (), m)

/-- The number of Peer Records whose `sdown` is true. -/
def sdownPeers (m : MasterInstance) : Nat :=
  (m.sentinels.filter (fun kv => kv.2.sdown)).length

/-! ## Failure detector -/

/-- One pass of the loop body of `masterPingRoutine` (`master.go`, lines
26-60). `pingErr` tells whether `m.client.Ping()` returned an error and `now`
is the clock reading of the pass. The second component tells whether the pass
posted the non-blocking signal on `subjDownNotify`. -/
def masterPingStep (m : MasterInstance) (pingErr : Bool) (now : Int) :
    MasterInstance × Bool :=
  if pingErr then
    if now - m.lastSuccessfulPing > m.sentinelConf.DownAfter then
      if m.state = MasterInstanceState.masterStateUp then
        ({ m with state := MasterInstanceState.masterStateSubjDown, downSince := now }, true)
      else
        (m, false)
    else
      (m, false)
  else
    let state := m.state
    let m1 := { m with lastSuccessfulPing := now }
    if state = MasterInstanceState.masterStateSubjDown ∨
        state = MasterInstanceState.masterStateObjDown then
      ({ m1 with state := MasterInstanceState.masterStateUp }, false)
    else
      (m1, false)

/-! ## Hello gossip -/

/-- The loop of `strings.Split` for a one-character separator: `cur` holds the
characters of the field being read, last one first. -/
def splitAux (sep : Char) : List Char → List Char → List String
  | [], cur => [String.mk cur.reverse]
  | c :: cs, cur =>
      if c = sep then String.mk cur.reverse :: splitAux sep cs []
      else splitAux sep cs (c :: cur)

/-- The call `strings.Split(s, ",")`. -/
def stringsSplitComma (s : String) : List String := splitAux ',' s.data []

/-- One pass of the loop body of `subscribeHello` (`master.go`, lines 120-152).
`received` is what `helloChan.Receive()` returned and `newRPCClient` is what
the client constructor answers during this pass. -/
def subscribeHelloStep (m : MasterInstance) (received : Except String String)
    (newRPCClient : String → String → Except String (String × String)) : MasterInstance :=
  match received with
  | Except.error _ => m
  | Except.ok newmsg =>
    match stringsSplitComma newmsg with
    | [p0, p1, runid, _, _, _, _, _] =>
      match m.sentinels.get? runid with
      | some _ => m
      | none =>
        match newRPCClient p0 p1 with
        | Except.error _ => m
        | Except.ok client =>
          let si : SentinelInstance :=
            { runID := runid, sdown := false, leaderID := "", leaderEpoch := 0,
              lastMasterDownReply := 0, client := client }
          { m with sentinels := m.sentinels.set runid si }
    | _ => m

/-! ## Failover: start, election, abort -/

/-- The smallest value of a Go `int` and of a `time.Duration` (64 bits). -/
def minInt64 : Int := -9223372036854775808

/-- The largest value of a Go `int` and of a `time.Duration` (64 bits). -/
def maxInt64 : Int := 9223372036854775807

/-- The result of `+`, `-` and `*` on a Go `int` or `time.Duration`: the exact
result reduced to the 64-bit two's complement range. -/
def wrapInt64 (x : Int) : Int :=
  (x + 9223372036854775808) % 18446744073709551616 - 9223372036854775808

/-- The call `time.Since(t)` at clock reading `now`: the elapsed time, which
`Time.Sub` replaces by the largest or smallest `Duration` when it does not fit. -/
def timeSince (now t : Int) : Int :=
  max minInt64 (min maxInt64 (now - t))

/-- The function `checkIfShouldFailover` (`master.go`, lines 426-453) at clock
reading `now`, in 64-bit arithmetic; the random pause before `return true` and
the timer wait before `return false` change no field. -/
def checkIfShouldFailover (s : Sentinel) (m : MasterInstance) (now : Int) :
    Sentinel × MasterInstance × Bool :=
  let secondsLeft :=
    wrapInt64 (wrapInt64 (2 * m.sentinelConf.FailoverTimeout) - timeSince now m.failOverStartTime)
  if secondsLeft ≤ 0 then
    let s1 := { s with currentEpoch := wrapInt64 (s.currentEpoch + 1) }
    let m1 := { m with
      failOverState := FailOverState.failOverWaitLeaderElection,
      failOverStartTime := now,
      failOverEpoch := s1.currentEpoch }
    (s1, m1, true)
  else
    (s, m, false)

/-- The function `abortFailover` (`master.go`, lines 507-518). -/
def abortFailover (m : MasterInstance) (now : Int) : MasterInstance :=
  { m with failOverState := FailOverState.failOverNone, failOverStateChangeTime := now }

/-- The function `promoteSlave` (`master.go`, lines 486-506). -/
def promoteSlave (m : MasterInstance) (slave : SlaveInstance) (now : Int) : MasterInstance :=
  { m with
    promotedSlave := some slave,
    failOverState := FailOverState.failOverPromoteSlave,
    failOverStateChangeTime := now }

/-- The read `instancesVotes[k]` of a `map[string]int`: zero for a missing key. -/
def votesOf (instancesVotes : GoMap Int) (k : String) : Int :=
  (instancesVotes.get? k).getD 0

/-- The first loop of `checkWhoIsLeader` (lines 533-540): the votes of the
peers whose `leaderID` is set and whose `leaderEpoch` is `currentEpoch`. -/
def tallyPeers (sentinels : GoMap SentinelInstance) (currentEpoch : Int)
    (instancesVotes : GoMap Int) : GoMap Int :=
  sentinels.foldl
    (fun iv kv =>
      if kv.2.leaderID ≠ "" ∧ kv.2.leaderEpoch = currentEpoch then
        iv.set kv.2.leaderID (votesOf iv kv.2.leaderID + 1)
      else iv)
    instancesVotes

/-- The second loop of `checkWhoIsLeader` (lines 545-550) over the entries in
the order they are visited: the running `(maxVote, winner)`. -/
def maxVoteLoop (visited : List (String × Int)) (init : Int × String) : Int × String :=
  visited.foldl (fun acc kv => if kv.2 > acc.1 then (kv.2, kv.1) else acc) init

/-- The entries of a tally: distinct non-empty keys with positive counts. -/
def GoodVotes (iv : GoMap Int) : Prop :=
  iv.keys.Nodup ∧ ∀ kv ∈ iv, kv.1 ≠ "" ∧ 0 < kv.2

/-- The values of `checkWhoIsLeader` just before its quorum test. -/
structure LeaderCount where
  winner : String
  maxVote : Int
  instancesVotes : GoMap Int
  candidate : String
  leaderEpoch : Int
  votedByMe : String
  deriving DecidableEq, Repr

/-- Lines 529-567 of `checkWhoIsLeader`: the peer tally, the maximum search, the
call of `voteLeader` and the addition of this monitor's own vote. `rangeOrder`
is the order in which `range instancesVotes` visits the entries; `voteLeader`
(declared outside `master.go`) answers `(leaderEpoch, votedByMe)`, and what it
records about its own vote is not read by `master.go`. -/
def countLeaderVotes (s : Sentinel) (m : MasterInstance)
    (voteLeader : MasterInstance → Int → String → Int × String)
    (rangeOrder : GoMap Int → List (String × Int)) : LeaderCount :=
  let currentEpoch := s.currentEpoch
  let instancesVotes := tallyPeers m.sentinels currentEpoch []
  let (maxVote, winner) := maxVoteLoop (rangeOrder instancesVotes) (0, "")
  let epoch := m.failOverEpoch
  let candidate := if winner ≠ "" then winner else s.selfID
  let (leaderEpoch, votedByMe) := voteLeader m epoch candidate
  if votedByMe ≠ "" ∧ leaderEpoch = epoch then
    let instancesVotes1 := instancesVotes.set votedByMe (votesOf instancesVotes votedByMe + 1)
    if votesOf instancesVotes1 votedByMe > maxVote then
      { winner := votedByMe, maxVote := votesOf instancesVotes1 votedByMe,
        instancesVotes := instancesVotes1, candidate := candidate,
        leaderEpoch := leaderEpoch, votedByMe := votedByMe }
    else
      { winner := winner, maxVote := maxVote,
        instancesVotes := instancesVotes1, candidate := candidate,
        leaderEpoch := leaderEpoch, votedByMe := votedByMe }
  else
    { winner := winner, maxVote := maxVote,
      instancesVotes := instancesVotes, candidate := candidate,
      leaderEpoch := leaderEpoch, votedByMe := votedByMe }

/-- The function `checkWhoIsLeader` (`master.go`, lines 528-574): the count
above followed by the quorum test of lines 568-571. Go's `/` on `int` is the
truncating division `Int.tdiv`. -/
def checkWhoIsLeader (s : Sentinel) (m : MasterInstance)
    (voteLeader : MasterInstance → Int → String → Int × String)
    (rangeOrder : GoMap Int → List (String × Int)) : String × Int :=
  let c := countLeaderVotes s m voteLeader rangeOrder
  let totalSentinels : Int := (m.sentinels.length : Int) + 1
  let quorum := totalSentinels.tdiv 2 + 1
  let winner :=
    if c.winner ≠ "" ∧ (c.maxVote < quorum ∨ c.maxVote < m.sentinelConf.Quorum) then ""
    else c.winner
  (winner, s.currentEpoch)

/-- The function `checkElectionStatus` (`master.go`, lines 455-484); `now` is
the clock reading after the one-second sleep of the branch `!isLeader`. -/
def checkElectionStatus (s : Sentinel) (m : MasterInstance)
    (voteLeader : MasterInstance → Int → String → Int × String)
    (rangeOrder : GoMap Int → List (String × Int)) (now : Int) : MasterInstance × Bool :=
  let leader := (checkWhoIsLeader s m voteLeader rangeOrder).1
  let isLeader := leader ≠ "" ∧ leader = s.selfID
  if ¬ isLeader then
    if now - m.failOverStartTime > m.sentinelConf.FailoverTimeout then
      (abortFailover m now, true)
    else
      (m, false)
  else
    ({ m with failOverState := FailOverState.failOverSelectSlave }, true)

/-! ## Replica reconfiguration and master replacement -/

/-- One `SlaveOf(host, port)` call: the replica whose client is called (by its
`runID` and `addr`) and the two arguments. -/
structure SlaveOfCall where
  targetRunID : String
  targetAddr : String
  host : String
  port : String
  deriving DecidableEq, Repr

/-- The first loop of the per-replica task of `reconfigRemoteSlaves` (lines
375-399). `replies` lists what the successive `SlaveOf` calls answer (`true`
for an error); the task leaves the loop at the first success, and at the
deadline when the list is used up. The result is the calls made, in order. -/
def reconfigTask (slave : SlaveInstance) : List Bool → List SlaveOfCall
  | [] => []
  | err :: rest =>
      let host := slave.host
      let port := slave.port
      let call : SlaveOfCall :=
        { targetRunID := slave.runID, targetAddr := slave.addr, host := host, port := port }
      if err then call :: reconfigTask slave rest else [call]

/-- The function `reconfigRemoteSlaves` (`master.go`, lines 354-424) as the
`SlaveOf` calls it makes, replica by replica in the order of `slaveList`.
`replies` gives, per replica address, what its successive `SlaveOf` calls
answer. With a nil `promotedSlave` the test of line 370 panics at the first
replica. -/
def reconfigRemoteSlaves (m : MasterInstance) (replies : String → List Bool) :
    Except String Unit × List SlaveOfCall :=
  let slaveList := m.slaves.map Prod.snd
  match m.promotedSlave with
  | none =>
    match slaveList with
    | [] => (Except.ok (), [])
    | _ :: _ => (Except.error "nil pointer dereference", [])
  | some promotedSlave =>
    (Except.ok (),
      slaveList.foldl
        (fun calls slave =>
          if slave.runID = promotedSlave.runID then calls
          else calls ++ reconfigTask slave (replies slave.addr))
        [])

/-- The loop of `resetMasterInstance` over the old slaves (lines 306-325): an
entry under `sl.addr` for every old slave whose `addr` is not `promotedAddr`.
The flag `killed` the loop sets on the old records goes away with them when
`m.slaves` is replaced. -/
def rebuildSlaves (slaves : GoMap SlaveInstance) (promotedAddr host port newMasterAddr : String)
    (newSlaves : GoMap SlaveInstance) : GoMap SlaveInstance :=
  slaves.foldl
    (fun ns kv =>
      let sl := kv.2
      if sl.addr ≠ promotedAddr then
        ns.set sl.addr
          { runID := "", host := sl.host, port := sl.port, addr := sl.addr,
            masterHost := host, masterPort := port, replOffset := sl.replOffset,
            reconfigFlag := 0, killed := false, reportedMaster := newMasterAddr }
      else ns)
    newSlaves

/-- The function `resetMasterInstance` (`master.go`, lines 272-351) at clock
reading `now`; `clientFactory` is what `s.clientFactory` answers. The result
is the panic status, the monitor with its registry, and the old record `m`.
The goroutines started at the end are not part of the result. -/
def resetMasterInstance (s : Sentinel) (m : MasterInstance)
    (clientFactory : String → Except String Unit) (now : Int) :
    Except String Unit × Sentinel × MasterInstance :=
  let m0 := { m with isKilled := true }
  match m.promotedSlave with
  | none => (Except.error "nil pointer dereference", s, m0)
  | some promoted =>
    let name := m.name
    let promotedAddr := promoted.addr
    let host := promoted.host
    let port := promoted.port
    let newRunID := promoted.runID
    match clientFactory promotedAddr with
    | Except.error _ => (Except.error "todo", s, m0)
    | Except.ok _ =>
      let newMaster : MasterInstance :=
        { runID := newRunID, sentinelConf := m.sentinelConf, name := name,
          host := host, port := port, configEpoch := m.configEpoch,
          slaves := [], sentinels := [],
          state := MasterInstanceState.masterStateUp, lastSuccessfulPing := now,
          isKilled := false, promotedSlave := none, downSince := 0,
          failOverState := FailOverState.failOverNone, failOverEpoch := 0,
          failOverStartTime := 0, failOverStateChangeTime := 0,
          leaderEpoch := 0, leaderID := "" }
      let newSlaves := rebuildSlaves m0.slaves promotedAddr host port newMaster.getAddr []
      let oldAddr := m0.host ++ ":" ++ m0.port
      let newSlaves := newSlaves.set oldAddr
        { runID := "", host := m0.host, port := m0.port, addr := oldAddr,
          masterHost := host, masterPort := port, replOffset := 0,
          reconfigFlag := 0, killed := false, reportedMaster := newMaster.getAddr }
      let m1 := { m0 with slaves := newSlaves }
      let s1 := { s with
        masterInstances := (s.masterInstances.delete oldAddr).set newMaster.getAddr newMaster }
      (Except.ok (), s1, m1)

/-! ## The failover loop of `masterRoutine` -/

/-- What one pass of the loop `failOverFSM` meets from outside the record. -/
structure FsmInputs where
  now : Int
  selectSlave : MasterInstance → Option SlaveInstance
  roleSwitched : Bool
  replies : String → List Bool
  clientFactory : String → Except String Unit

/-- What one pass of the loop `failOverFSM` leaves behind. -/
structure FsmOutcome where
  sentinel : Sentinel
  master : MasterInstance
  stopAsking : Bool
  leftLoop : Bool
  calls : List SlaveOfCall
  panicked : Bool

/-- One pass of the loop `failOverFSM` of `masterRoutine` (`master.go`, lines
223-268). `selectSlave` is declared outside `master.go` and is an input;
`roleSwitched` tells whether `masterRoleSwitchChan` fires before the timer.
`stopAsking` records a call of `stopAskingOtherSentinels` and `leftLoop` the
statement `break failOverFSM`. -/
def failOverFSMStep (s : Sentinel) (m : MasterInstance)
    (voteLeader : MasterInstance → Int → String → Int × String)
    (rangeOrder : GoMap Int → List (String × Int)) (inp : FsmInputs) : FsmOutcome :=
  match m.failOverState with
  | FailOverState.failOverWaitLeaderElection =>
    let (m1, aborted) := checkElectionStatus s m voteLeader rangeOrder inp.now
    if aborted then
      { sentinel := s, master := m1, stopAsking := true, leftLoop := true,
        calls := [], panicked := false }
    else
      { sentinel := s, master := m1, stopAsking := false, leftLoop := false,
        calls := [], panicked := false }
  | FailOverState.failOverSelectSlave =>
    match inp.selectSlave m with
    | none =>
      { sentinel := s, master := abortFailover m inp.now, stopAsking := true,
        leftLoop := false, calls := [], panicked := false }
    | some slave =>
      { sentinel := s, master := promoteSlave m slave inp.now, stopAsking := false,
        leftLoop := false, calls := [], panicked := false }
  | FailOverState.failOverPromoteSlave =>
    match m.promotedSlave with
    | none =>
      { sentinel := s, master := m, stopAsking := false, leftLoop := false,
        calls := [], panicked := true }
    | some _ =>
      if inp.roleSwitched then
        { sentinel := s,
          master := { m with
            failOverState := FailOverState.failOverReconfSlave,
            failOverStateChangeTime := inp.now },
          stopAsking := false, leftLoop := false, calls := [], panicked := false }
      else
        { sentinel := s, master := abortFailover m inp.now, stopAsking := false,
          leftLoop := false, calls := [], panicked := false }
  | FailOverState.failOverReconfSlave =>
    match reconfigRemoteSlaves m inp.replies with
    | (Except.error _, calls) =>
      { sentinel := s, master := m, stopAsking := false, leftLoop := false,
        calls := calls, panicked := true }
    | (Except.ok _, calls) =>
      match resetMasterInstance s m inp.clientFactory inp.now with
      | (Except.error _, s1, m1) =>
        { sentinel := s1, master := m1, stopAsking := false, leftLoop := false,
          calls := calls, panicked := true }
      | (Except.ok _, s1, m1) =>
        { sentinel := s1, master := m1, stopAsking := false, leftLoop := false,
          calls := calls, panicked := false }
  | FailOverState.failOverNone =>
    { sentinel := s, master := m, stopAsking := false, leftLoop := false,
      calls := [], panicked := false }

/-- The loop `failOverFSM` of `masterRoutine` (`master.go`, lines 222-268) run
for as many passes as `inputs` has entries, each pass meeting the next entry.
The loop has no condition: it ends only by `break failOverFSM` (`leftLoop`) or
by a panic. A result with `leftLoop = false` and `panicked = false` is a loop
still running after the last of the given passes. `stopAsking` and `calls`
collect what the passes did. -/
def failOverFSMLoop
    (voteLeader : MasterInstance → Int → String → Int × String)
    (rangeOrder : GoMap Int → List (String × Int)) :
    List FsmInputs → Sentinel → MasterInstance → FsmOutcome
  | [], s, m =>
    { sentinel := s, master := m, stopAsking := false, leftLoop := false,
      calls := [], panicked := false }
  | inp :: rest, s, m =>
    let o := failOverFSMStep s m voteLeader rangeOrder inp
    if o.leftLoop || o.panicked then o
    else
      let o2 := failOverFSMLoop voteLeader rangeOrder rest o.sentinel o.master
      { o2 with stopAsking := o.stopAsking || o2.stopAsking, calls := o.calls ++ o2.calls }

/-! ## Sample records -/

/-- A master record with two Peer Records, one of which reports the master
down, and `Quorum = 2`. -/
def s2Master : MasterInstance :=
  { sentinelConf :=
      { DownAfter := 3000, Quorum := 2, FailoverTimeout := 30000,
        ReconfigSlaveTimeout := 10000, ParallelSync := 2 },
    isKilled := false, name := "mymaster", runID := "m1",
    slaves := [], promotedSlave := none,
    sentinels :=
      [("peerA", { runID := "peerA", sdown := true, leaderID := "", leaderEpoch := 0,
                   lastMasterDownReply := 0, client := ("10.0.0.2", "26379") }),
       ("peerB", { runID := "peerB", sdown := false, leaderID := "", leaderEpoch := 0,
                   lastMasterDownReply := 0, client := ("10.0.0.3", "26379") })],
    host := "10.0.0.1", port := "6379",
    state := MasterInstanceState.masterStateSubjDown,
    downSince := 4000, lastSuccessfulPing := 0,
    failOverState := FailOverState.failOverNone, failOverEpoch := 0,
    failOverStartTime := 0, failOverStateChangeTime := 0,
    leaderEpoch := 0, leaderID := "", configEpoch := 3 }

/-- The monitor of scenario S3: `currentEpoch = 8`. -/
def s3Sentinel : Sentinel :=
  { runID := "self", currentEpoch := 8, masterInstances := [] }

/-- The master record of scenario S3: `failOverEpoch = 8`, `Quorum = 2`, peer A
voted for this monitor at epoch 8 and peer B for itself at epoch 8; the
election started at time 100000. -/
def s3Master : MasterInstance :=
  { s2Master with
    sentinels :=
      [("peerA", { runID := "peerA", sdown := true, leaderID := "self", leaderEpoch := 8,
                   lastMasterDownReply := 0, client := ("10.0.0.2", "26379") }),
       ("peerB", { runID := "peerB", sdown := true, leaderID := "peerB", leaderEpoch := 8,
                   lastMasterDownReply := 0, client := ("10.0.0.3", "26379") })],
    state := MasterInstanceState.masterStateObjDown,
    failOverState := FailOverState.failOverWaitLeaderElection,
    failOverEpoch := 8, failOverStartTime := 100000 }

/-- A `voteLeader` that grants the requested candidate at the requested epoch. -/
def grantVote : MasterInstance → Int → String → Int × String :=
  fun _ epoch candidate => (epoch, candidate)

/-- A replica record at `host:port`. -/
def mkSlave (runID host port : String) (replOffset : Int) : SlaveInstance :=
  { runID := runID, host := host, port := port, addr := host ++ ":" ++ port,
    masterHost := "10.0.0.1", masterPort := "6379", replOffset := replOffset,
    reconfigFlag := 0, killed := false, reportedMaster := "10.0.0.1:6379" }

/-- A master record at 10.0.0.1:6379 in state `reconfig_slave` with two
replicas, the one at 10.0.0.2:6379 promoted. -/
def s5Master : MasterInstance :=
  { s3Master with
    slaves :=
      [("10.0.0.2:6379", mkSlave "r2" "10.0.0.2" "6379" 120),
       ("10.0.0.3:6379", mkSlave "r3" "10.0.0.3" "6379" 100)],
    promotedSlave := some (mkSlave "r2" "10.0.0.2" "6379" 120),
    failOverState := FailOverState.failOverReconfSlave }

/-- The monitor holding `s5Master` in its registry. -/
def s5Sentinel : Sentinel :=
  { runID := "self", currentEpoch := 8, masterInstances := [("10.0.0.1:6379", s5Master)] }

/-- The hello message of scenario S6. -/
def s6Hello : String := "10.0.0.2,26379,peerY,4,mymaster,10.0.0.1,6379,3"

/-- A client constructor that succeeds for every address. -/
def dialOk : String → String → Except String (String × String) :=
  fun ip port => Except.ok (ip, port)

/-- The surroundings of one pass of the failover loop at time 101000: no
replica selectable, no role switch seen, every `SlaveOf` succeeding. -/
def s3Inputs : FsmInputs :=
  { now := 101000, selectSlave := fun _ => none, roleSwitched := false,
    replies := fun _ => [false], clientFactory := fun _ => Except.ok () }

/-! ## The election threshold in the words of the spec -/

/-- The tally of candidate `c` as the spec words it: the number of Peer Records
whose recorded vote is `c` with `leaderEpoch == currentEpoch`, plus one when
this monitor's own vote `reply = (leaderEpoch, votedByMe)` went to `c` and was
granted for `failOverEpoch`. -/
def specTally (s : Sentinel) (m : MasterInstance) (reply : Int × String) (c : String) : Int :=
  ((m.sentinels.filter
      (fun kv => decide (kv.2.leaderID = c ∧ kv.2.leaderEpoch = s.currentEpoch))).length : Int)
    + (if reply.2 = c ∧ reply.1 = m.failOverEpoch then 1 else 0)

/-- A master record with one Peer Record that has not voted, and `Quorum = 1`. -/
def onePeerMaster : MasterInstance :=
  { s3Master with
    sentinelConf := { s3Master.sentinelConf with Quorum := 1 },
    sentinels :=
      [("peerA", { runID := "peerA", sdown := true, leaderID := "", leaderEpoch := 0,
                   lastMasterDownReply := 0, client := ("10.0.0.2", "26379") })] }

/-- The master record of scenario S3 once this monitor has been elected: the
failover is in state select_slave. -/
def selectSlaveMaster : MasterInstance :=
  { s3Master with failOverState := FailOverState.failOverSelectSlave }

/-- A master record in state promote_slave, the replica at 10.0.0.2:6379 being
the promoted one (scenario S4). -/
def promoteSlaveMaster : MasterInstance :=
  { s5Master with failOverState := FailOverState.failOverPromoteSlave }

/-! ## Theorems -/

theorem countDown_eq (l : GoMap SentinelInstance) (d : Int) :
    countDown l d = d + ((l.filter (fun kv => kv.2.sdown)).length : Int) := by
  induction l generalizing d with
  | nil => simp [countDown]
  | cons kv rest ih =>
    have hstep : countDown (kv :: rest) d
        = countDown rest (if kv.2.sdown then d + 1 else d) := rfl
    rw [hstep, ih]
    cases hsd : kv.2.sdown <;> simp [List.filter, hsd]
    omega

/-- C1. For a master record with `len(sentinels) + 1 >= Quorum`, `checkObjDown`
does not panic; afterwards `state` is ObjectivelyDown when
`1 + (number of Peer Records with sdown) >= Quorum` and is unchanged otherwise,
and every other field of the record, the Peer Records included, is as before. -/
theorem checkObjDown_spec (m : MasterInstance)
    (hq : m.sentinelConf.Quorum ≤ (m.sentinels.length : Int) + 1) :
    checkObjDown m =
      (Except.ok (),
        { m with state :=
            if m.sentinelConf.Quorum ≤ 1 + (sdownPeers m : Int)
            then MasterInstanceState.masterStateObjDown else m.state }) := by
  unfold checkObjDown
  simp only [countDown_eq, sdownPeers]
  rw [if_neg (by omega)]
  by_cases h : m.sentinelConf.Quorum ≤ 1 + ((m.sentinels.filter (fun kv => kv.2.sdown)).length : Int)
  · rw [if_pos (by simpa [ge_iff_le] using h), if_pos h]
  · rw [if_neg (by simpa [ge_iff_le] using h), if_neg h]

theorem checkObjDown_spec_witness :
    s2Master.sentinelConf.Quorum ≤ (s2Master.sentinels.length : Int) + 1 ∧
    checkObjDown s2Master =
      (Except.ok (),
        { s2Master with state :=
            if s2Master.sentinelConf.Quorum ≤ 1 + (sdownPeers s2Master : Int)
            then MasterInstanceState.masterStateObjDown else s2Master.state }) :=
  ⟨by decide, checkObjDown_spec s2Master (by decide)⟩

/-- C8. The function `checkObjDown` panics exactly when
`len(sentinels) + 1 < Quorum`, and when it panics the master record is as it
was before the call (in particular `state` has not been set). -/
theorem checkObjDown_panic_iff (m : MasterInstance) :
    ((checkObjDown m).1 ≠ Except.ok () ↔
        (m.sentinels.length : Int) + 1 < m.sentinelConf.Quorum) ∧
    ((m.sentinels.length : Int) + 1 < m.sentinelConf.Quorum →
        (checkObjDown m).2 = m ∧ ∃ msg, (checkObjDown m).1 = Except.error msg) := by
  unfold checkObjDown
  by_cases h : (m.sentinels.length : Int) + 1 < m.sentinelConf.Quorum
  · simp [h]
  · simp only [h, if_false, false_implies, and_true, iff_false, not_not]
    split <;> rfl

theorem checkObjDown_panic_iff_witness :
    ((checkObjDown { s2Master with sentinels := [] }).1 ≠ Except.ok () ↔
        (([] : GoMap SentinelInstance).length : Int) + 1 < s2Master.sentinelConf.Quorum) ∧
    ((([] : GoMap SentinelInstance).length : Int) + 1 < s2Master.sentinelConf.Quorum →
        (checkObjDown { s2Master with sentinels := [] }).2 = { s2Master with sentinels := [] } ∧
        ∃ msg, (checkObjDown { s2Master with sentinels := [] }).1 = Except.error msg) :=
  checkObjDown_panic_iff { s2Master with sentinels := [] }

/-! ### Failure detector -/

/-- C6. One pass of `masterPingRoutine` with a failing ping at time `now`: the
state changes exactly when it is Up and `now - lastSuccessfulPing > DownAfter`,
and then the record becomes SubjectivelyDown with `downSince = now` and the
signal is posted; in every other case, so when
`now - lastSuccessfulPing = DownAfter` exactly or when the state is already
SubjectivelyDown or ObjectivelyDown, the whole record is unchanged. -/
theorem masterPingStep_failing_ping (m : MasterInstance) (now : Int) :
    ((masterPingStep m true now).1.state ≠ m.state ↔
      (m.state = MasterInstanceState.masterStateUp ∧
        now - m.lastSuccessfulPing > m.sentinelConf.DownAfter)) ∧
    ((m.state = MasterInstanceState.masterStateUp ∧
        now - m.lastSuccessfulPing > m.sentinelConf.DownAfter) →
      masterPingStep m true now =
        ({ m with state := MasterInstanceState.masterStateSubjDown, downSince := now }, true)) ∧
    ((now - m.lastSuccessfulPing = m.sentinelConf.DownAfter ∨
        m.state = MasterInstanceState.masterStateSubjDown ∨
        m.state = MasterInstanceState.masterStateObjDown) →
      masterPingStep m true now = (m, false)) ∧
    (¬ (m.state = MasterInstanceState.masterStateUp ∧
        now - m.lastSuccessfulPing > m.sentinelConf.DownAfter) →
      masterPingStep m true now = (m, false)) := by
  unfold masterPingStep
  by_cases hd : now - m.lastSuccessfulPing > m.sentinelConf.DownAfter
  · by_cases hs : m.state = MasterInstanceState.masterStateUp
    · simp [hd, hs]
      omega
    · simp [hd, hs]
  · simp [hd]

/-- The state at `t = 3s` of scenario S1 (`DownAfter = 3s`, last successful
ping at 0) is unchanged, and at `t = 4s` it becomes SubjectivelyDown. -/
theorem masterPingStep_failing_ping_witness :
    masterPingStep { s2Master with state := MasterInstanceState.masterStateUp } true 3000
      = ({ s2Master with state := MasterInstanceState.masterStateUp }, false) ∧
    masterPingStep { s2Master with state := MasterInstanceState.masterStateUp } true 4000
      = ({ s2Master with
            state := MasterInstanceState.masterStateSubjDown, downSince := 4000 }, true) :=
  ⟨(masterPingStep_failing_ping
      { s2Master with state := MasterInstanceState.masterStateUp } 3000).2.2.1
      (Or.inl (by decide)),
   (masterPingStep_failing_ping
      { s2Master with state := MasterInstanceState.masterStateUp } 4000).2.1
      ⟨rfl, by decide⟩⟩

/-! ### Start of a failover -/

theorem wrapInt64_of_inRange (x : Int) (hlo : minInt64 ≤ x) (hhi : x ≤ maxInt64) :
    wrapInt64 x = x := by
  unfold minInt64 at hlo
  unfold maxInt64 at hhi
  unfold wrapInt64
  omega

/-- C3, as stated, fails. At `currentEpoch = 9223372036854775807`, the largest
`int`, with `2 * FailoverTimeout` elapsed, the new `currentEpoch` is
`-9223372036854775808`, smaller than before. And with
`FailoverTimeout = 5000000000000000000` and only 1000 elapsed, so less than
twice the timeout, the product wraps to a negative value and the function
starts a failover and returns true. -/
theorem checkIfShouldFailover_wraps :
    ((checkIfShouldFailover { s3Sentinel with currentEpoch := 9223372036854775807 }
        s2Master 60000).1.currentEpoch = -9223372036854775808 ∧
      ¬ ((9223372036854775807 : Int) ≤
        (checkIfShouldFailover { s3Sentinel with currentEpoch := 9223372036854775807 }
          s2Master 60000).1.currentEpoch)) ∧
    (¬ (2 * (5000000000000000000 : Int) ≤ timeSince 1000 0) ∧
      (checkIfShouldFailover s3Sentinel
        { s2Master with sentinelConf :=
            { s2Master.sentinelConf with FailoverTimeout := 5000000000000000000 } }
        1000).2.2 = true ∧
      (checkIfShouldFailover s3Sentinel
        { s2Master with sentinelConf :=
            { s2Master.sentinelConf with FailoverTimeout := 5000000000000000000 } }
        1000).1.currentEpoch = 9) := by
  decide

/-- C3, amended. Provided the 64-bit arithmetic does not overflow, that is
`currentEpoch + 1`, `2 * FailoverTimeout` and
`2 * FailoverTimeout - time.Since(failOverStartTime)` are within the range of
an `int64`: when the time since `failOverStartTime` is at least
`2 * FailoverTimeout`, `checkIfShouldFailover` sets `currentEpoch` to
`currentEpoch + 1`, `failOverEpoch` to that new value and `failOverState` to
wait_leader_election, and returns true; otherwise it returns false and leaves
the monitor and the master record as they were. In both cases `currentEpoch`
and `configEpoch` are not smaller after the call than before. -/
theorem checkIfShouldFailover_spec (s : Sentinel) (m : MasterInstance) (now : Int)
    (hepoch : minInt64 ≤ s.currentEpoch + 1 ∧ s.currentEpoch + 1 ≤ maxInt64)
    (hdouble : minInt64 ≤ 2 * m.sentinelConf.FailoverTimeout ∧
      2 * m.sentinelConf.FailoverTimeout ≤ maxInt64)
    (hleft : minInt64 ≤ 2 * m.sentinelConf.FailoverTimeout - timeSince now m.failOverStartTime ∧
      2 * m.sentinelConf.FailoverTimeout - timeSince now m.failOverStartTime ≤ maxInt64) :
    (2 * m.sentinelConf.FailoverTimeout ≤ timeSince now m.failOverStartTime →
      (checkIfShouldFailover s m now).1.currentEpoch = s.currentEpoch + 1 ∧
      (checkIfShouldFailover s m now).2.1.failOverEpoch = s.currentEpoch + 1 ∧
      (checkIfShouldFailover s m now).2.1.failOverState
        = FailOverState.failOverWaitLeaderElection ∧
      (checkIfShouldFailover s m now).2.2 = true) ∧
    (¬ 2 * m.sentinelConf.FailoverTimeout ≤ timeSince now m.failOverStartTime →
      checkIfShouldFailover s m now = (s, m, false)) ∧
    s.currentEpoch ≤ (checkIfShouldFailover s m now).1.currentEpoch ∧
    m.configEpoch ≤ (checkIfShouldFailover s m now).2.1.configEpoch := by
  unfold checkIfShouldFailover
  rw [wrapInt64_of_inRange _ hdouble.1 hdouble.2, wrapInt64_of_inRange _ hleft.1 hleft.2,
    wrapInt64_of_inRange _ hepoch.1 hepoch.2]
  by_cases h : 2 * m.sentinelConf.FailoverTimeout ≤ timeSince now m.failOverStartTime
  · have h1 : 2 * m.sentinelConf.FailoverTimeout - timeSince now m.failOverStartTime ≤ 0 := by
      omega
    simp [h, h1]
  · have h1 : ¬ 2 * m.sentinelConf.FailoverTimeout - timeSince now m.failOverStartTime ≤ 0 := by
      omega
    simp [h, h1]

/-- The start of the election of scenario S3: at epoch 7, with
`FailoverTimeout = 30s` and the last start at time 0, the check at time 60s
bumps the epoch to 8. -/
theorem checkIfShouldFailover_spec_witness :
    (checkIfShouldFailover { s3Sentinel with currentEpoch := 7 } s2Master 60000).1.currentEpoch
        = 7 + 1 ∧
    (checkIfShouldFailover { s3Sentinel with currentEpoch := 7 } s2Master 60000).2.1.failOverEpoch
        = 7 + 1 ∧
    (checkIfShouldFailover { s3Sentinel with currentEpoch := 7 } s2Master 60000).2.1.failOverState
        = FailOverState.failOverWaitLeaderElection ∧
    (checkIfShouldFailover { s3Sentinel with currentEpoch := 7 } s2Master 60000).2.2 = true :=
  (checkIfShouldFailover_spec { s3Sentinel with currentEpoch := 7 } s2Master 60000
    (by decide) (by decide) (by decide)).1 (by decide)

/-! ### Go maps -/

theorem GoMap.get?_set_self {V : Type} (m : GoMap V) (k : String) (v : V) :
    (m.set k v).get? k = some v := by
  induction m with
  | nil => simp [GoMap.set, GoMap.get?, List.lookup]
  | cons kv rest ih =>
    obtain ⟨k', v'⟩ := kv
    by_cases h : k' = k
    · simp [GoMap.set, GoMap.get?, List.lookup, h]
    · have hne : (k == k') = false := by simpa using fun e => h e.symm
      simp only [GoMap.set, if_neg h, GoMap.get?, List.lookup, hne]
      exact ih

theorem GoMap.get?_set_other {V : Type} (m : GoMap V) (k k' : String) (v : V) (h : k' ≠ k) :
    (m.set k v).get? k' = m.get? k' := by
  induction m with
  | nil =>
    have hne : (k' == k) = false := by simpa using h
    simp [GoMap.set, GoMap.get?, List.lookup, hne]
  | cons kv rest ih =>
    obtain ⟨k₁, v₁⟩ := kv
    by_cases h1 : k₁ = k
    · subst h1
      have hne : (k' == k₁) = false := by simpa using h
      simp [GoMap.set, GoMap.get?, List.lookup, hne]
    · simp only [GoMap.set, if_neg h1, GoMap.get?, List.lookup]
      cases hk : (k' == k₁)
      · exact ih
      · rfl

theorem GoMap.get?_eq_none_iff {V : Type} (m : GoMap V) (k : String) :
    m.get? k = none ↔ k ∉ m.keys := by
  induction m with
  | nil => simp [GoMap.get?, GoMap.keys, List.lookup]
  | cons kv rest ih =>
    obtain ⟨k₁, v₁⟩ := kv
    by_cases h : k = k₁
    · subst h
      simp [GoMap.get?, GoMap.keys, List.lookup]
    · have hne : (k == k₁) = false := by simpa using h
      simp only [GoMap.get?, List.lookup, hne, GoMap.keys, List.map_cons, List.mem_cons, h,
        false_or]
      exact ih

/-! ### Hello gossip -/

theorem length_eq_eight {α : Type} (l : List α) (h : l.length = 8) :
    ∃ a b c d e f g i, l = [a, b, c, d, e, f, g, i] := by
  match l, h with
  | [a, b, c, d, e, f, g, i], _ => exact ⟨a, b, c, d, e, f, g, i, rfl⟩

/-- C9. For a hello message of 8 fields whose third field is already a key of
`m.sentinels`, one pass of `subscribeHello` leaves the master record, so the
peer set and every Peer Record, unchanged. Hence for any 8-field message that
is known or whose first processing creates the client (and inserts the Peer
Record with `sdown = false`), processing it a second time gives the record
obtained by processing it once, whatever the client constructor answers the
second time. -/
theorem subscribeHelloStep_idempotent (m : MasterInstance) (newmsg : String)
    (rpc1 rpc2 : String → String → Except String (String × String))
    (h8 : (stringsSplitComma newmsg).length = 8) :
    ((stringsSplitComma newmsg).getD 2 "" ∈ m.sentinels.keys →
      subscribeHelloStep m (Except.ok newmsg) rpc1 = m) ∧
    (((stringsSplitComma newmsg).getD 2 "" ∈ m.sentinels.keys ∨
        ∃ client, rpc1 ((stringsSplitComma newmsg).getD 0 "")
          ((stringsSplitComma newmsg).getD 1 "") = Except.ok client) →
      (stringsSplitComma newmsg).getD 2 "" ∈
          (subscribeHelloStep m (Except.ok newmsg) rpc1).sentinels.keys ∧
      subscribeHelloStep (subscribeHelloStep m (Except.ok newmsg) rpc1) (Except.ok newmsg) rpc2
        = subscribeHelloStep m (Except.ok newmsg) rpc1) ∧
    ((stringsSplitComma newmsg).getD 2 "" ∉ m.sentinels.keys →
      ∀ client, rpc1 ((stringsSplitComma newmsg).getD 0 "")
          ((stringsSplitComma newmsg).getD 1 "") = Except.ok client →
        (subscribeHelloStep m (Except.ok newmsg) rpc1).sentinels.get?
            ((stringsSplitComma newmsg).getD 2 "")
          = some { runID := (stringsSplitComma newmsg).getD 2 "", sdown := false,
                   leaderID := "", leaderEpoch := 0, lastMasterDownReply := 0,
                   client := client }) := by
  obtain ⟨p0, p1, runid, p3, p4, p5, p6, p7, hp⟩ := length_eq_eight _ h8
  have known : ∀ (m' : MasterInstance) rpc, runid ∈ m'.sentinels.keys →
      subscribeHelloStep m' (Except.ok newmsg) rpc = m' := by
    intro m' rpc hk
    have hsome : m'.sentinels.get? runid ≠ none := by
      rw [Ne, GoMap.get?_eq_none_iff]; exact fun h => h hk
    unfold subscribeHelloStep
    simp only [hp]
    cases hg : m'.sentinels.get? runid with
    | none => exact absurd hg hsome
    | some v => rfl
  have fresh : ∀ client, runid ∉ m.sentinels.keys → rpc1 p0 p1 = Except.ok client →
      subscribeHelloStep m (Except.ok newmsg) rpc1 =
        { m with sentinels := (m.sentinels.set runid
            { runID := runid, sdown := false, leaderID := "", leaderEpoch := 0,
              lastMasterDownReply := 0, client := client }) } := by
    intro client hk hc
    have hnone : m.sentinels.get? runid = none := (GoMap.get?_eq_none_iff _ _).2 hk
    unfold subscribeHelloStep
    simp only [hp, hnone, hc]
  simp only [hp, List.getD_cons_zero, List.getD_cons_succ]
  refine ⟨known m rpc1, ?_, ?_⟩
  · intro h
    by_cases hk : runid ∈ m.sentinels.keys
    · rw [known m rpc1 hk]
      exact ⟨hk, known m rpc2 hk⟩
    · rcases h with h | ⟨client, hc⟩
      · exact absurd h hk
      · have hin : runid ∈ (subscribeHelloStep m (Except.ok newmsg) rpc1).sentinels.keys := by
          rw [fresh client hk hc]
          by_contra hcon
          have := (GoMap.get?_eq_none_iff _ _).2 hcon
          simp [GoMap.get?_set_self] at this
        exact ⟨hin, known _ rpc2 hin⟩
  · intro hk client hc
    rw [fresh client hk hc]
    exact GoMap.get?_set_self _ _ _

/-- Scenario S6: the hello message of peerY, received by a record that does not
know peerY, inserts a Peer Record keyed peerY, and receiving it again gives the
same record. -/
theorem subscribeHelloStep_idempotent_witness :
    "peerY" ∈ (subscribeHelloStep s2Master (Except.ok s6Hello) dialOk).sentinels.keys ∧
    subscribeHelloStep (subscribeHelloStep s2Master (Except.ok s6Hello) dialOk)
        (Except.ok s6Hello) dialOk
      = subscribeHelloStep s2Master (Except.ok s6Hello) dialOk :=
  (subscribeHelloStep_idempotent s2Master s6Hello dialOk dialOk (by decide)).2.1
    (Or.inr ⟨("10.0.0.2", "26379"), rfl⟩)

/-! ### Election status -/

/-- A winner equal to this monitor's own runID makes `checkElectionStatus` set
select_slave and return `true`. -/
theorem checkElectionStatus_of_leader (s : Sentinel) (m : MasterInstance)
    (voteLeader : MasterInstance → Int → String → Int × String)
    (rangeOrder : GoMap Int → List (String × Int)) (now : Int)
    (hne : s.selfID ≠ "")
    (hw : (checkWhoIsLeader s m voteLeader rangeOrder).1 = s.selfID) :
    checkElectionStatus s m voteLeader rangeOrder now
      = ({ m with failOverState := FailOverState.failOverSelectSlave }, true) := by
  unfold checkElectionStatus
  simp [hw, hne]

/-- C10. In scenario S3 with this monitor's runID visited first, this monitor
is the winner; `checkElectionStatus` sets `failOverState = select_slave` and
returns `aborted = true` (the claim says `false`), and the pass of the failover
loop of `masterRoutine` then calls `stopAskingOtherSentinels` and leaves the
loop with the state select_slave not handled. -/
theorem checkElectionStatus_leader_returns_true :
    (checkWhoIsLeader s3Sentinel s3Master grantVote id).1 = s3Sentinel.selfID ∧
    checkElectionStatus s3Sentinel s3Master grantVote id 101000
      = ({ s3Master with failOverState := FailOverState.failOverSelectSlave }, true) ∧
    (failOverFSMStep s3Sentinel s3Master grantVote id s3Inputs).master.failOverState
      = FailOverState.failOverSelectSlave ∧
    (failOverFSMStep s3Sentinel s3Master grantVote id s3Inputs).stopAsking = true ∧
    (failOverFSMStep s3Sentinel s3Master grantVote id s3Inputs).leftLoop = true := by
  decide

/-! ### Replica reconfiguration and master replacement -/

theorem reconfigTask_calls (slave : SlaveInstance) (replies : List Bool) :
    ∀ call ∈ reconfigTask slave replies,
      call = { targetRunID := slave.runID, targetAddr := slave.addr,
               host := slave.host, port := slave.port } := by
  induction replies with
  | nil => simp [reconfigTask]
  | cons err rest ih =>
    intro call hcall
    cases err
    · simpa [reconfigTask] using hcall
    · simp only [reconfigTask, if_true, List.mem_cons] at hcall
      rcases hcall with h | h
      · exact h
      · exact ih call h

/-- Every `SlaveOf` call of `reconfigRemoteSlaves` goes to a replica of
`m.slaves` whose runID differs from the promoted one's, and its arguments are
that replica's own host and port. -/
theorem reconfigRemoteSlaves_calls (m : MasterInstance) (p : SlaveInstance)
    (replies : String → List Bool) (hp : m.promotedSlave = some p) :
    ∀ call ∈ (reconfigRemoteSlaves m replies).2,
      ∃ kv ∈ m.slaves, kv.2.runID ≠ p.runID ∧ call.targetRunID = kv.2.runID ∧
        call.targetAddr = kv.2.addr ∧ call.host = kv.2.host ∧ call.port = kv.2.port := by
  have key : ∀ (l : List SlaveInstance) (acc : List SlaveOfCall),
      ∀ call ∈ l.foldl
          (fun calls slave =>
            if slave.runID = p.runID then calls
            else calls ++ reconfigTask slave (replies slave.addr)) acc,
        call ∈ acc ∨ ∃ sl ∈ l, sl.runID ≠ p.runID ∧ call.targetRunID = sl.runID ∧
          call.targetAddr = sl.addr ∧ call.host = sl.host ∧ call.port = sl.port := by
    intro l
    induction l with
    | nil => intro acc call h; exact Or.inl h
    | cons sl rest ih =>
      intro acc call h
      simp only [List.foldl_cons] at h
      rcases ih _ call h with h1 | ⟨sl', hmem, hrest⟩
      · by_cases hr : sl.runID = p.runID
        · rw [if_pos hr] at h1
          exact Or.inl h1
        · rw [if_neg hr] at h1
          rcases List.mem_append.1 h1 with h2 | h2
          · exact Or.inl h2
          · have := reconfigTask_calls sl _ call h2
            exact Or.inr ⟨sl, List.mem_cons_self _ _, hr, by simp [this]⟩
      · exact Or.inr ⟨sl', List.mem_cons_of_mem _ hmem, hrest⟩
  intro call hcall
  unfold reconfigRemoteSlaves at hcall
  simp only [hp] at hcall
  rcases key _ [] call hcall with h | ⟨sl, hmem, hrest⟩
  · simp at h
  · obtain ⟨kv, hkv, rfl⟩ := List.mem_map.1 hmem
    exact ⟨kv, hkv, hrest⟩

/-- C5. With the replica at 10.0.0.2:6379 promoted, the one `SlaveOf` call of
`reconfigRemoteSlaves` goes to the replica at 10.0.0.3:6379 and carries that
replica's own host and port, 10.0.0.3 and 6379, not those of the new primary;
no call goes to the promoted replica. -/
theorem reconfigRemoteSlaves_sends_own_address :
    reconfigRemoteSlaves s5Master (fun _ => [false])
      = (Except.ok (),
          [{ targetRunID := "r3", targetAddr := "10.0.0.3:6379",
             host := "10.0.0.3", port := "6379" }]) ∧
    s5Master.promotedSlave.map (fun p => (p.host, p.port)) = some ("10.0.0.2", "6379") := by
  constructor
  · rfl
  · decide

/-- Whenever `resetMasterInstance` completes, the record it registers under
the promoted replica's `host:port` has an empty slave map. -/
theorem resetMasterInstance_fresh_slaves (s : Sentinel) (m : MasterInstance)
    (p : SlaveInstance) (clientFactory : String → Except String Unit) (now : Int)
    (hp : m.promotedSlave = some p) (hcf : clientFactory p.addr = Except.ok ()) :
    ((resetMasterInstance s m clientFactory now).2.1.masterInstances.get?
        (p.host ++ ":" ++ p.port)).map (fun nm => nm.slaves) = some [] := by
  unfold resetMasterInstance
  simp only [hp, hcf, MasterInstance.getAddr, GoMap.get?_set_self, Option.map_some']

/-- C4. After `resetMasterInstance` on the record at 10.0.0.1:6379 with the
replica at 10.0.0.2:6379 promoted, the fresh record registered under
10.0.0.2:6379 has an empty slave map; the rebuilt map, with keys 10.0.0.3:6379
and 10.0.0.1:6379, is the `slaves` field of the old record. -/
theorem resetMasterInstance_fresh_record_has_no_slaves :
    ((resetMasterInstance s5Sentinel s5Master (fun _ => Except.ok ()) 200000).2.1.masterInstances.get?
        "10.0.0.2:6379").map (fun nm => nm.slaves) = some [] ∧
    (resetMasterInstance s5Sentinel s5Master (fun _ => Except.ok ()) 200000).2.2.slaves.keys
      = ["10.0.0.3:6379", "10.0.0.1:6379"] ∧
    (resetMasterInstance s5Sentinel s5Master (fun _ => Except.ok ()) 200000).2.1.masterInstances.keys
      = ["10.0.0.2:6379"] := by
  decide

/-! ### Leader election -/

theorem votesOf_set (iv : GoMap Int) (k c : String) (v : Int) :
    votesOf (iv.set k v) c = if c = k then v else votesOf iv c := by
  by_cases h : c = k
  · subst h
    simp [votesOf, GoMap.get?_set_self]
  · simp [votesOf, GoMap.get?_set_other iv k c v h, h]

theorem GoMap.mem_set {V : Type} (m : GoMap V) (k : String) (v : V) (kv : String × V)
    (h : kv ∈ m.set k v) : kv = (k, v) ∨ kv ∈ m := by
  induction m with
  | nil => simpa [GoMap.set] using h
  | cons hd rest ih =>
    obtain ⟨k₁, v₁⟩ := hd
    by_cases h1 : k₁ = k
    · simp only [GoMap.set, if_pos h1, List.mem_cons] at h
      rcases h with h | h
      · exact Or.inl h
      · exact Or.inr (List.mem_cons_of_mem _ h)
    · simp only [GoMap.set, if_neg h1, List.mem_cons] at h
      rcases h with h | h
      · exact Or.inr (h ▸ List.mem_cons_self _ _)
      · rcases ih h with h | h
        · exact Or.inl h
        · exact Or.inr (List.mem_cons_of_mem _ h)

theorem GoMap.keys_set_subset {V : Type} (m : GoMap V) (k : String) (v : V) (a : String)
    (h : a ∈ (m.set k v).keys) : a = k ∨ a ∈ m.keys := by
  simp only [GoMap.keys, List.mem_map] at h ⊢
  obtain ⟨kv, hkv, rfl⟩ := h
  rcases GoMap.mem_set m k v kv hkv with h | h
  · exact Or.inl (by rw [h])
  · exact Or.inr ⟨kv, h, rfl⟩

theorem GoMap.nodup_keys_set {V : Type} (m : GoMap V) (k : String) (v : V)
    (h : m.keys.Nodup) : (m.set k v).keys.Nodup := by
  induction m with
  | nil => simp [GoMap.set, GoMap.keys]
  | cons hd rest ih =>
    obtain ⟨k₁, v₁⟩ := hd
    have hcons : k₁ ∉ GoMap.keys rest ∧ (GoMap.keys rest).Nodup := by
      simpa [GoMap.keys] using h
    by_cases h1 : k₁ = k
    · subst h1
      simpa [GoMap.set, GoMap.keys] using h
    · simp only [GoMap.set, if_neg h1]
      have hnot : k₁ ∉ GoMap.keys (GoMap.set rest k v) := by
        intro hin
        rcases GoMap.keys_set_subset rest k v k₁ hin with h2 | h2
        · exact h1 h2
        · exact hcons.1 h2
      have := ih hcons.2
      simp only [GoMap.keys, List.map_cons, List.nodup_cons]
      exact ⟨hnot, this⟩

theorem GoMap.get?_of_mem {V : Type} (m : GoMap V) (k : String) (v : V)
    (hnd : m.keys.Nodup) (h : (k, v) ∈ m) : m.get? k = some v := by
  induction m with
  | nil => simp at h
  | cons hd rest ih =>
    obtain ⟨k₁, v₁⟩ := hd
    have hcons : k₁ ∉ GoMap.keys rest ∧ (GoMap.keys rest).Nodup := by
      simpa [GoMap.keys] using hnd
    simp only [List.mem_cons, Prod.mk.injEq] at h
    rcases h with ⟨hk, hv⟩ | h
    · subst hk; subst hv
      simp [GoMap.get?, List.lookup]
    · have hne : k ≠ k₁ := by
        intro e
        subst e
        exact hcons.1 (List.mem_map.2 ⟨(k, v), h, rfl⟩)
      have hb : (k == k₁) = false := by simpa using hne
      simp only [GoMap.get?, List.lookup, hb]
      exact ih hcons.2 h

theorem GoMap.mem_of_get? {V : Type} (m : GoMap V) (k : String) (v : V)
    (h : m.get? k = some v) : (k, v) ∈ m := by
  induction m with
  | nil => simp [GoMap.get?, List.lookup] at h
  | cons hd rest ih =>
    obtain ⟨k₁, v₁⟩ := hd
    cases hb : (k == k₁)
    · simp only [GoMap.get?, List.lookup, hb] at h
      exact List.mem_cons_of_mem _ (ih h)
    · have hk : k = k₁ := by simpa using hb
      simp only [GoMap.get?, List.lookup, hb, Option.some.injEq] at h
      subst hk; subst h
      exact List.mem_cons_self _ _

theorem GoodVotes.votesOf_nonneg {iv : GoMap Int} (h : GoodVotes iv) (c : String) :
    0 ≤ votesOf iv c := by
  unfold votesOf
  cases hg : iv.get? c with
  | none => simp
  | some v =>
    have := (h.2 _ (GoMap.mem_of_get? iv c v hg)).2
    simp only [Option.getD_some]
    omega

theorem GoodVotes.set_succ {iv : GoMap Int} (h : GoodVotes iv) (k : String) (hk : k ≠ "") :
    GoodVotes (iv.set k (votesOf iv k + 1)) := by
  refine ⟨GoMap.nodup_keys_set iv k _ h.1, ?_⟩
  intro kv hkv
  rcases GoMap.mem_set iv k _ kv hkv with h1 | h1
  · have := h.votesOf_nonneg k
    rw [h1]
    exact ⟨hk, by simp only; omega⟩
  · exact h.2 kv h1

theorem tallyPeers_good (l : GoMap SentinelInstance) (e : Int) (iv : GoMap Int)
    (h : GoodVotes iv) : GoodVotes (tallyPeers l e iv) := by
  induction l generalizing iv with
  | nil => exact h
  | cons kv rest ih =>
    unfold tallyPeers
    simp only [List.foldl_cons]
    by_cases hc : kv.2.leaderID ≠ "" ∧ kv.2.leaderEpoch = e
    · rw [if_pos hc]
      exact ih _ (h.set_succ _ hc.1)
    · rw [if_neg hc]
      exact ih _ h

theorem tallyPeers_votesOf (l : GoMap SentinelInstance) (e : Int) (iv : GoMap Int)
    (c : String) (hc : c ≠ "") :
    votesOf (tallyPeers l e iv) c
      = votesOf iv c +
        ((l.filter (fun kv => decide (kv.2.leaderID = c ∧ kv.2.leaderEpoch = e))).length : Int) := by
  induction l generalizing iv with
  | nil => simp [tallyPeers]
  | cons kv rest ih =>
    have hstep : tallyPeers (kv :: rest) e iv
        = tallyPeers rest e
            (if kv.2.leaderID ≠ "" ∧ kv.2.leaderEpoch = e then
              iv.set kv.2.leaderID (votesOf iv kv.2.leaderID + 1)
            else iv) := rfl
    rw [hstep, ih]
    by_cases h1 : kv.2.leaderID ≠ "" ∧ kv.2.leaderEpoch = e
    · rw [if_pos h1, votesOf_set]
      by_cases h2 : c = kv.2.leaderID
      · have hd : (kv.2.leaderID = c ∧ kv.2.leaderEpoch = e) := ⟨h2.symm, h1.2⟩
        simp only [List.filter, hd, and_self, decide_True, List.length_cons, if_pos h2]
        simp only [if_true]
        push_cast
        omega
      · have hd : ¬ (kv.2.leaderID = c ∧ kv.2.leaderEpoch = e) := fun h => h2 h.1.symm
        simp [List.filter, hd, h2]
    · rw [if_neg h1]
      have hd : ¬ (kv.2.leaderID = c ∧ kv.2.leaderEpoch = e) := by
        intro h
        exact h1 ⟨by rw [h.1]; exact hc, h.2⟩
      simp [List.filter, hd]

theorem maxVoteLoop_spec (l : List (String × Int)) (mv0 : Int) (w0 : String) :
    mv0 ≤ (maxVoteLoop l (mv0, w0)).1 ∧
    (∀ kv ∈ l, kv.2 ≤ (maxVoteLoop l (mv0, w0)).1) ∧
    (maxVoteLoop l (mv0, w0) = (mv0, w0) ∨
      (((maxVoteLoop l (mv0, w0)).2, (maxVoteLoop l (mv0, w0)).1) ∈ l ∧
        mv0 < (maxVoteLoop l (mv0, w0)).1)) := by
  induction l generalizing mv0 w0 with
  | nil => simp [maxVoteLoop]
  | cons kv rest ih =>
    have hstep : maxVoteLoop (kv :: rest) (mv0, w0)
        = maxVoteLoop rest (if kv.2 > mv0 then (kv.2, kv.1) else (mv0, w0)) := rfl
    rw [hstep]
    by_cases h : kv.2 > mv0
    · rw [if_pos h]
      obtain ⟨h1, h2, h3⟩ := ih kv.2 kv.1
      refine ⟨by omega, ?_, ?_⟩
      · intro x hx
        rcases List.mem_cons.1 hx with hx | hx
        · rw [hx]; exact h1
        · exact h2 x hx
      · right
        rcases h3 with h3 | h3
        · rw [h3]
          exact ⟨List.mem_cons_self _ _, h⟩
        · exact ⟨List.mem_cons_of_mem _ h3.1, by omega⟩
    · rw [if_neg h]
      obtain ⟨h1, h2, h3⟩ := ih mv0 w0
      refine ⟨h1, ?_, ?_⟩
      · intro x hx
        rcases List.mem_cons.1 hx with hx | hx
        · rw [hx]; omega
        · exact h2 x hx
      · rcases h3 with h3 | h3
        · exact Or.inl h3
        · exact Or.inr ⟨List.mem_cons_of_mem _ h3.1, h3.2⟩

theorem votesOf_le_of_forall (iv : GoMap Int) (mv : Int) (h0 : 0 ≤ mv)
    (h : ∀ kv ∈ iv, kv.2 ≤ mv) (c : String) : votesOf iv c ≤ mv := by
  unfold votesOf
  cases hg : iv.get? c with
  | none => simpa using h0
  | some v => simpa using h _ (GoMap.mem_of_get? iv c v hg)

theorem countLeaderVotes_facts (s : Sentinel) (m : MasterInstance)
    (voteLeader : MasterInstance → Int → String → Int × String)
    (rangeOrder : GoMap Int → List (String × Int))
    (hperm : ∀ iv, (rangeOrder iv).Perm iv) :
    (∀ k, k ≠ "" →
      specTally s m
          (voteLeader m m.failOverEpoch (countLeaderVotes s m voteLeader rangeOrder).candidate) k
        ≤ (countLeaderVotes s m voteLeader rangeOrder).maxVote) ∧
    ((countLeaderVotes s m voteLeader rangeOrder).winner ≠ "" →
      specTally s m
          (voteLeader m m.failOverEpoch (countLeaderVotes s m voteLeader rangeOrder).candidate)
          (countLeaderVotes s m voteLeader rangeOrder).winner
        = (countLeaderVotes s m voteLeader rangeOrder).maxVote) ∧
    ((countLeaderVotes s m voteLeader rangeOrder).winner = "" →
      (countLeaderVotes s m voteLeader rangeOrder).maxVote = 0) := by
  have hgood : GoodVotes (tallyPeers m.sentinels s.currentEpoch []) :=
    tallyPeers_good _ _ [] ⟨by simp [GoMap.keys], by simp⟩
  have hv : ∀ c, c ≠ "" → votesOf (tallyPeers m.sentinels s.currentEpoch []) c
      = ((m.sentinels.filter
          (fun kv => decide (kv.2.leaderID = c ∧ kv.2.leaderEpoch = s.currentEpoch))).length : Int) := by
    intro c hc
    rw [tallyPeers_votesOf _ _ _ c hc]
    simp [votesOf, GoMap.get?, List.lookup]
  obtain ⟨h1, h2, h3⟩ :=
    maxVoteLoop_spec (rangeOrder (tallyPeers m.sentinels s.currentEpoch [])) 0 ""
  rcases hr : maxVoteLoop (rangeOrder (tallyPeers m.sentinels s.currentEpoch [])) (0, "")
    with ⟨mv, w⟩
  rw [hr] at h1 h2 h3
  simp only at h1 h2 h3
  have hle : ∀ c, votesOf (tallyPeers m.sentinels s.currentEpoch []) c ≤ mv :=
    votesOf_le_of_forall _ mv h1 (fun kv hkv => h2 kv ((hperm _).mem_iff.2 hkv))
  have hw : w ≠ "" → votesOf (tallyPeers m.sentinels s.currentEpoch []) w = mv := by
    intro hne
    rcases h3 with h3 | h3
    · exact absurd (by simpa using (Prod.mk.inj h3).2) hne
    · have hmem := (hperm _).mem_iff.1 h3.1
      simp [votesOf, GoMap.get?_of_mem _ w mv hgood.1 hmem]
  have hw0 : w = "" → mv = 0 := by
    intro he
    rcases h3 with h3 | h3
    · exact (Prod.mk.inj h3).1
    · have hmem := (hperm _).mem_iff.1 h3.1
      exact absurd he (hgood.2 _ hmem).1
  rcases hrep : voteLeader m m.failOverEpoch (if w ≠ "" then w else s.selfID) with ⟨le, vb⟩
  unfold countLeaderVotes
  simp only [hr, hrep]
  have hst : ∀ k, k ≠ "" → specTally s m (le, vb) k
      = votesOf (tallyPeers m.sentinels s.currentEpoch []) k
        + (if vb = k ∧ le = m.failOverEpoch then 1 else 0) := by
    intro k hk
    rw [hv k hk]
    rfl
  by_cases hg : vb ≠ "" ∧ le = m.failOverEpoch
  · rw [if_pos hg]
    simp only [votesOf_set, if_true]
    by_cases hgt : votesOf (tallyPeers m.sentinels s.currentEpoch []) vb + 1 > mv
    · rw [if_pos hgt]
      simp only [hrep]
      refine ⟨?_, ?_, ?_⟩
      · intro k hk
        rw [hst k hk]
        by_cases hkv : vb = k
        · subst hkv
          simp [hg.2]
        · have := hle k
          simp only [hkv, false_and, if_false]
          omega
      · intro hne
        rw [hst vb hne]
        simp [hg.2]
      · intro he
        exact absurd he hg.1
    · rw [if_neg hgt]
      simp only [hrep]
      refine ⟨?_, ?_, hw0⟩
      · intro k hk
        rw [hst k hk]
        by_cases hkv : vb = k
        · subst hkv
          simp only [hg.2, and_self, if_true]
          omega
        · have := hle k
          simp only [hkv, false_and, if_false]
          omega
      · intro hne
        rw [hst w hne]
        have hwv := hw hne
        by_cases hkv : vb = w
        · subst hkv
          omega
        · simp only [hkv, false_and, if_false]
          omega
  · rw [if_neg hg]
    simp only [hrep]
    have hno : ∀ k, k ≠ "" → ¬ (vb = k ∧ le = m.failOverEpoch) := by
      intro k hk h
      exact hg ⟨by rw [h.1]; exact hk, h.2⟩
    refine ⟨?_, ?_, hw0⟩
    · intro k hk
      rw [hst k hk, if_neg (hno k hk)]
      have := hle k
      omega
    · intro hne
      rw [hst w hne, if_neg (hno w hne)]
      have := hw hne
      omega

/-- C2, as stated, fails. With one Peer Record that has not voted and
`Quorum = 1`, this monitor's own granted vote gives it a tally of 1, which is
`max(Quorum, peers/2 + 1) = max(1, 1/2 + 1) = 1`; yet `checkWhoIsLeader`
returns the empty winner, its threshold being `(1 + 1)/2 + 1 = 2`. -/
theorem checkWhoIsLeader_peers_threshold_fails :
    max onePeerMaster.sentinelConf.Quorum ((onePeerMaster.sentinels.length : Int).tdiv 2 + 1)
      ≤ specTally s3Sentinel onePeerMaster
          (grantVote onePeerMaster onePeerMaster.failOverEpoch
            (countLeaderVotes s3Sentinel onePeerMaster grantVote id).candidate) "self" ∧
    (checkWhoIsLeader s3Sentinel onePeerMaster grantVote id).1 = "" := by
  decide

/-- C2, amended. Whatever `voteLeader` answers and whatever the order in which
the tally is visited, `checkWhoIsLeader` returns a non-empty winner exactly
when some candidate's tally (votes of peers whose `leaderEpoch == currentEpoch`,
plus this monitor's own vote when granted for `failOverEpoch`) is at least
`max(Quorum, (peers + 1)/2 + 1)`, `peers` being `len(m.sentinels)`; the winner
returned then has such a tally, and no candidate has a larger one. Below the
threshold the winner is the empty string. -/
theorem checkWhoIsLeader_winner_iff (s : Sentinel) (m : MasterInstance)
    (voteLeader : MasterInstance → Int → String → Int × String)
    (rangeOrder : GoMap Int → List (String × Int))
    (hperm : ∀ iv, (rangeOrder iv).Perm iv) :
    ((checkWhoIsLeader s m voteLeader rangeOrder).1 ≠ "" ↔
      ∃ k, k ≠ "" ∧
        max m.sentinelConf.Quorum (((m.sentinels.length : Int) + 1) / 2 + 1)
          ≤ specTally s m
              (voteLeader m m.failOverEpoch (countLeaderVotes s m voteLeader rangeOrder).candidate)
              k) ∧
    ((checkWhoIsLeader s m voteLeader rangeOrder).1 ≠ "" →
      max m.sentinelConf.Quorum (((m.sentinels.length : Int) + 1) / 2 + 1)
          ≤ specTally s m
              (voteLeader m m.failOverEpoch (countLeaderVotes s m voteLeader rangeOrder).candidate)
              (checkWhoIsLeader s m voteLeader rangeOrder).1 ∧
      ∀ k, k ≠ "" →
        specTally s m
            (voteLeader m m.failOverEpoch (countLeaderVotes s m voteLeader rangeOrder).candidate)
            k
          ≤ specTally s m
              (voteLeader m m.failOverEpoch (countLeaderVotes s m voteLeader rangeOrder).candidate)
              (checkWhoIsLeader s m voteLeader rangeOrder).1) := by
  obtain ⟨f1, f2, f3⟩ := countLeaderVotes_facts s m voteLeader rangeOrder hperm
  have hdiv : ((m.sentinels.length : Int) + 1).tdiv 2 = ((m.sentinels.length : Int) + 1) / 2 :=
    Int.tdiv_eq_ediv (by omega) (by omega)
  have hw : (checkWhoIsLeader s m voteLeader rangeOrder).1 =
      if (countLeaderVotes s m voteLeader rangeOrder).winner ≠ "" ∧
          ((countLeaderVotes s m voteLeader rangeOrder).maxVote
              < ((m.sentinels.length : Int) + 1) / 2 + 1 ∨
            (countLeaderVotes s m voteLeader rangeOrder).maxVote < m.sentinelConf.Quorum)
      then "" else (countLeaderVotes s m voteLeader rangeOrder).winner := by
    unfold checkWhoIsLeader
    simp only [hdiv]
  generalize countLeaderVotes s m voteLeader rangeOrder = c at f1 f2 f3 hw
  generalize voteLeader m m.failOverEpoch c.candidate = reply at f1 f2 f3
  rw [hw]
  by_cases hwin : c.winner ≠ "" ∧
      (c.maxVote < ((m.sentinels.length : Int) + 1) / 2 + 1 ∨ c.maxVote < m.sentinelConf.Quorum)
  · rw [if_pos hwin]
    refine ⟨⟨fun h => absurd rfl h, ?_⟩, fun h => absurd rfl h⟩
    rintro ⟨k, hk, hle⟩
    have := f1 k hk
    have hmax := le_max_left m.sentinelConf.Quorum (((m.sentinels.length : Int) + 1) / 2 + 1)
    have hmax2 := le_max_right m.sentinelConf.Quorum (((m.sentinels.length : Int) + 1) / 2 + 1)
    rcases hwin.2 with h | h <;> omega
  · rw [if_neg hwin]
    have hthr : c.winner ≠ "" →
        max m.sentinelConf.Quorum (((m.sentinels.length : Int) + 1) / 2 + 1) ≤ c.maxVote := by
      intro hne
      have h1 : ¬ c.maxVote < ((m.sentinels.length : Int) + 1) / 2 + 1 :=
        fun h => hwin ⟨hne, Or.inl h⟩
      have h2 : ¬ c.maxVote < m.sentinelConf.Quorum := fun h => hwin ⟨hne, Or.inr h⟩
      exact max_le (by omega) (by omega)
    refine ⟨⟨fun hne => ⟨c.winner, hne, by rw [f2 hne]; exact hthr hne⟩, ?_⟩, ?_⟩
    · rintro ⟨k, hk, hle⟩ he
      have h0 := f3 he
      have := f1 k hk
      have hmax2 := le_max_right m.sentinelConf.Quorum (((m.sentinels.length : Int) + 1) / 2 + 1)
      omega
    · intro hne
      refine ⟨by rw [f2 hne]; exact hthr hne, ?_⟩
      intro k hk
      rw [f2 hne]
      exact f1 k hk

/-- Scenario S3 with this monitor's runID visited first: the winner is
non-empty, so some candidate's tally reaches `max(2, (2 + 1)/2 + 1) = 2`. -/
theorem checkWhoIsLeader_winner_iff_witness :
    ∃ k, k ≠ "" ∧
      max s3Master.sentinelConf.Quorum (((s3Master.sentinels.length : Int) + 1) / 2 + 1)
        ≤ specTally s3Sentinel s3Master
            (grantVote s3Master s3Master.failOverEpoch
              (countLeaderVotes s3Sentinel s3Master grantVote id).candidate) k :=
  (checkWhoIsLeader_winner_iff s3Sentinel s3Master grantVote id
      (fun _ => List.Perm.refl _)).1.1 (by decide)

/-! ### Scenario S3 and the visiting order of the tally -/

theorem perm_pair {α : Type} (a b : α) (l : List α) (h : l.Perm [a, b]) :
    l = [a, b] ∨ l = [b, a] := by
  have hlen := h.length_eq
  match l, hlen with
  | [x, y], _ =>
    have ha : a ∈ [x, y] := h.mem_iff.2 (List.mem_cons_self _ _)
    simp only [List.mem_cons, List.mem_singleton, List.not_mem_nil, or_false] at ha
    rcases ha with ha | ha
    · subst ha
      have h2 : [y].Perm [b] := List.Perm.cons_inv h
      have hy : y = b := by simpa using h2
      exact Or.inl (by rw [hy])
    · subst ha
      have h1 : [a, x].Perm [a, b] := (List.Perm.swap x a []).trans h
      have h2 : [x].Perm [b] := List.Perm.cons_inv h1
      have hx : x = b := by simpa using h2
      exact Or.inr (by rw [hx])

/-- C7, as stated, fails. In scenario S3, when the tally is visited with
peer B's entry first, `checkWhoIsLeader` returns peer B (the own vote went to
B, which then has 2 votes), and `checkElectionStatus` leaves `failOverState`
at wait_leader_election. -/
theorem s3_peerB_visited_first :
    (List.reverse (tallyPeers s3Master.sentinels s3Sentinel.currentEpoch [])).Perm
        (tallyPeers s3Master.sentinels s3Sentinel.currentEpoch []) ∧
    (checkWhoIsLeader s3Sentinel s3Master grantVote List.reverse).1 = "peerB" ∧
    (countLeaderVotes s3Sentinel s3Master grantVote List.reverse).maxVote = 2 ∧
    (checkElectionStatus s3Sentinel s3Master grantVote List.reverse 101000).1.failOverState
      = FailOverState.failOverWaitLeaderElection :=
  ⟨List.reverse_perm _, by decide, by decide, by decide⟩

/-- C7, amended. In scenario S3, for every order in which the tally is visited
and every `voteLeader` that grants the requested candidate at epoch 8, the
winner has 2 votes and is this monitor or peer B; it is this monitor exactly
when this monitor's entry is visited before peer B's, and then
`checkElectionStatus` sets `failOverState = select_slave`. -/
theorem s3_winner_by_visiting_order
    (voteLeader : MasterInstance → Int → String → Int × String)
    (rangeOrder : GoMap Int → List (String × Int)) (now : Int)
    (hperm : ∀ iv, (rangeOrder iv).Perm iv)
    (hgrant : ∀ c, voteLeader s3Master 8 c = (8, c)) :
    (countLeaderVotes s3Sentinel s3Master voteLeader rangeOrder).maxVote = 2 ∧
    ((checkWhoIsLeader s3Sentinel s3Master voteLeader rangeOrder).1 = "self" ∨
      (checkWhoIsLeader s3Sentinel s3Master voteLeader rangeOrder).1 = "peerB") ∧
    ((checkWhoIsLeader s3Sentinel s3Master voteLeader rangeOrder).1 = "self" ↔
      (rangeOrder (tallyPeers s3Master.sentinels s3Sentinel.currentEpoch [])).head?
        = some ("self", 1)) ∧
    ((checkWhoIsLeader s3Sentinel s3Master voteLeader rangeOrder).1 = "self" →
      (checkElectionStatus s3Sentinel s3Master voteLeader rangeOrder now).1.failOverState
        = FailOverState.failOverSelectSlave) := by
  have htally : tallyPeers s3Master.sentinels s3Sentinel.currentEpoch []
      = [("self", 1), ("peerB", 1)] := by decide
  have hepoch : s3Master.failOverEpoch = 8 := rfl
  have hp := hperm (tallyPeers s3Master.sentinels s3Sentinel.currentEpoch [])
  rw [htally] at hp
  have hself : s3Sentinel.selfID = "self" := rfl
  rcases perm_pair _ _ _ hp with ho | ho
  · have hmax : maxVoteLoop [("self", 1), ("peerB", 1)] (0, "") = (1, "self") := by decide
    have hcand : (if ("self" : String) ≠ "" then "self" else "self") = "self" := by decide
    have hc : countLeaderVotes s3Sentinel s3Master voteLeader rangeOrder
        = { winner := "self", maxVote := 2,
            instancesVotes := [("self", 2), ("peerB", 1)], candidate := "self",
            leaderEpoch := 8, votedByMe := "self" } := by
      unfold countLeaderVotes
      simp only [htally, ho, hmax, hself, hcand, hepoch, hgrant]
      decide
    have hw : (checkWhoIsLeader s3Sentinel s3Master voteLeader rangeOrder).1 = "self" := by
      unfold checkWhoIsLeader
      simp only [hc]
      decide
    refine ⟨by rw [hc], Or.inl hw, ?_, ?_⟩
    · rw [htally, ho]
      simp [hw]
    · intro _
      rw [checkElectionStatus_of_leader s3Sentinel s3Master voteLeader rangeOrder now
        (by decide) (by rw [hw, hself])]
  · have hmax : maxVoteLoop [("peerB", 1), ("self", 1)] (0, "") = (1, "peerB") := by decide
    have hcand : (if ("peerB" : String) ≠ "" then "peerB" else "self") = "peerB" := by decide
    have hc : countLeaderVotes s3Sentinel s3Master voteLeader rangeOrder
        = { winner := "peerB", maxVote := 2,
            instancesVotes := [("self", 1), ("peerB", 2)], candidate := "peerB",
            leaderEpoch := 8, votedByMe := "peerB" } := by
      unfold countLeaderVotes
      simp only [htally, ho, hmax, hself, hcand, hepoch, hgrant]
      decide
    have hw : (checkWhoIsLeader s3Sentinel s3Master voteLeader rangeOrder).1 = "peerB" := by
      unfold checkWhoIsLeader
      simp only [hc]
      decide
    have hne : ("peerB" : String) ≠ "self" := by decide
    refine ⟨by rw [hc], Or.inr hw, ?_, ?_⟩
    · rw [htally, ho, hw]
      simp
    · intro h
      rw [hw] at h
      exact absurd h hne

/-- Scenario S3 with a `voteLeader` that grants every request and the tally
visited as stored: this monitor wins with 2 votes and the state becomes
select_slave. -/
theorem s3_winner_by_visiting_order_witness :
    (countLeaderVotes s3Sentinel s3Master grantVote id).maxVote = 2 ∧
    ((checkWhoIsLeader s3Sentinel s3Master grantVote id).1 = "self" ∨
      (checkWhoIsLeader s3Sentinel s3Master grantVote id).1 = "peerB") ∧
    ((checkWhoIsLeader s3Sentinel s3Master grantVote id).1 = "self" ↔
      (id (tallyPeers s3Master.sentinels s3Sentinel.currentEpoch [])).head?
        = some ("self", 1)) ∧
    ((checkWhoIsLeader s3Sentinel s3Master grantVote id).1 = "self" →
      (checkElectionStatus s3Sentinel s3Master grantVote id 101000).1.failOverState
        = FailOverState.failOverSelectSlave) :=
  s3_winner_by_visiting_order grantVote id 101000 (fun _ => List.Perm.refl _) (fun _ => rfl)

/-! ### The failover loop after an abort -/

/-- A pass of the loop in state none changes nothing and does not leave the
loop: the `switch` has no case for `failOverNone`. -/
theorem failOverFSMStep_none (s : Sentinel) (m : MasterInstance)
    (voteLeader : MasterInstance → Int → String → Int × String)
    (rangeOrder : GoMap Int → List (String × Int)) (inp : FsmInputs)
    (h : m.failOverState = FailOverState.failOverNone) :
    (failOverFSMStep s m voteLeader rangeOrder inp).sentinel = s ∧
    (failOverFSMStep s m voteLeader rangeOrder inp).master = m ∧
    (failOverFSMStep s m voteLeader rangeOrder inp).stopAsking = false ∧
    (failOverFSMStep s m voteLeader rangeOrder inp).leftLoop = false ∧
    (failOverFSMStep s m voteLeader rangeOrder inp).calls = [] ∧
    (failOverFSMStep s m voteLeader rangeOrder inp).panicked = false := by
  unfold failOverFSMStep
  simp [h]

/-- Once `failOverState` is none the loop runs on for ever: after any number of
passes, whatever they meet, it has not been left and the record is the same. -/
theorem failOverFSMLoop_none_spins (s : Sentinel) (m : MasterInstance)
    (voteLeader : MasterInstance → Int → String → Int × String)
    (rangeOrder : GoMap Int → List (String × Int))
    (h : m.failOverState = FailOverState.failOverNone) (inputs : List FsmInputs) :
    (failOverFSMLoop voteLeader rangeOrder inputs s m).leftLoop = false ∧
    (failOverFSMLoop voteLeader rangeOrder inputs s m).panicked = false ∧
    (failOverFSMLoop voteLeader rangeOrder inputs s m).stopAsking = false ∧
    (failOverFSMLoop voteLeader rangeOrder inputs s m).sentinel = s ∧
    (failOverFSMLoop voteLeader rangeOrder inputs s m).master = m := by
  induction inputs with
  | nil => simp [failOverFSMLoop]
  | cons inp rest ih =>
    obtain ⟨h1, h2, h3, h4, _, h6⟩ := failOverFSMStep_none s m voteLeader rangeOrder inp h
    obtain ⟨i1, i2, i3, i4, i5⟩ := ih
    simp only [failOverFSMLoop, h1, h2, h3, h4, h6, Bool.or_self, Bool.false_eq_true, if_false,
      i1, i2, i3, i4, i5, and_self]

/-- A pass that neither leaves the loop nor panics and ends in state none is
followed only by passes that do not leave the loop. -/
theorem failOverFSMLoop_after_abort (s : Sentinel) (m : MasterInstance)
    (voteLeader : MasterInstance → Int → String → Int × String)
    (rangeOrder : GoMap Int → List (String × Int)) (inp : FsmInputs)
    (hleft : (failOverFSMStep s m voteLeader rangeOrder inp).leftLoop = false)
    (hpanic : (failOverFSMStep s m voteLeader rangeOrder inp).panicked = false)
    (hnone : (failOverFSMStep s m voteLeader rangeOrder inp).master.failOverState
      = FailOverState.failOverNone)
    (inputs : List FsmInputs) :
    (failOverFSMLoop voteLeader rangeOrder (inp :: inputs) s m).leftLoop = false ∧
    (failOverFSMLoop voteLeader rangeOrder (inp :: inputs) s m).panicked = false ∧
    (failOverFSMLoop voteLeader rangeOrder (inp :: inputs) s m).master.failOverState
      = FailOverState.failOverNone := by
  obtain ⟨i1, i2, _, _, i5⟩ :=
    failOverFSMLoop_none_spins (failOverFSMStep s m voteLeader rangeOrder inp).sentinel
      (failOverFSMStep s m voteLeader rangeOrder inp).master voteLeader rangeOrder hnone inputs
  simp only [failOverFSMLoop, hleft, hpanic, Bool.or_self, Bool.false_eq_true, if_false,
    i1, i2, i5, hnone, and_self]

/-- C11. The loop is not left after an abort inside it. From state
select_slave with no suitable replica, and from state promote_slave with the
timer firing before the role switch, the pass calls `abortFailover`
(`failOverState` becomes none) and does not leave the loop; after any number
of further passes, whatever they meet, the loop has still not been left and
`failOverState` is still none. The abort of wait_leader_election, by contrast,
leaves the loop in the same pass. -/
theorem failOverFSMLoop_not_left_after_abort (inputs : List FsmInputs) :
    ((failOverFSMStep s3Sentinel selectSlaveMaster grantVote id s3Inputs).master.failOverState
        = FailOverState.failOverNone ∧
      (failOverFSMLoop grantVote id (s3Inputs :: inputs) s3Sentinel selectSlaveMaster).leftLoop
        = false ∧
      (failOverFSMLoop grantVote id (s3Inputs :: inputs) s3Sentinel
          selectSlaveMaster).master.failOverState = FailOverState.failOverNone) ∧
    ((failOverFSMStep s5Sentinel promoteSlaveMaster grantVote id s3Inputs).master.failOverState
        = FailOverState.failOverNone ∧
      (failOverFSMLoop grantVote id (s3Inputs :: inputs) s5Sentinel promoteSlaveMaster).leftLoop
        = false ∧
      (failOverFSMLoop grantVote id (s3Inputs :: inputs) s5Sentinel
          promoteSlaveMaster).master.failOverState = FailOverState.failOverNone) ∧
    ((failOverFSMStep s3Sentinel onePeerMaster grantVote id
          { s3Inputs with now := 200000 }).master.failOverState = FailOverState.failOverNone ∧
      (failOverFSMStep s3Sentinel onePeerMaster grantVote id
          { s3Inputs with now := 200000 }).leftLoop = true) := by
  have a := failOverFSMLoop_after_abort s3Sentinel selectSlaveMaster grantVote id s3Inputs
    (by decide) (by decide) (by decide) inputs
  have b := failOverFSMLoop_after_abort s5Sentinel promoteSlaveMaster grantVote id s3Inputs
    (by decide) (by decide) (by decide) inputs
  exact ⟨⟨by decide, a.1, a.2.2⟩, ⟨by decide, b.1, b.2.2⟩, by decide, by decide⟩

end GoSentinel
